import Mathlib

/-!
Shallow embedding of the BetterResume resume-analyzer (FastAPI app):
`main.py` (the POST /analyze handler), `utils/gemini_api.py`
(get_summary, get_analysis, get_wellness_score) and `utils/simple_ats.py`
(calculate_ats_score).  Strings are modelled as `List Char`; the regular
expressions used by the program are small enough that each `re.search` /
`re.split` call is embedded directly as a scanning function with the same
leftmost-match semantics.  The external Gemini provider call is abstracted
as a parameter of type `PyVal (List Char)`: either the response text or a
raised exception message; the configured model handle is `Option Unit`.
Numeric values produced by Python `float` are modelled as rationals, which
agrees with IEEE doubles at every decimal value the theorems mention.
-/

namespace BetterResume

/-- Characters Python treats as whitespace for the regex class backslash-s
and for `str.strip` (ASCII range, which is all the inputs here use). -/
def isSpaceChar (c : Char) : Bool :=
  c == ' ' || c == '\t' || c == '\n' || c == '\r' || c == '\x0b' || c == '\x0c'

/-- ASCII digit test, the regex class 0-9. -/
def isDigitChar (c : Char) : Bool :=
  '0' ≤ c && c ≤ '9'

/-- The regex character class of digits and dot, used by the wellness
score capture group. -/
def isScoreChar (c : Char) : Bool :=
  isDigitChar c || c == '.'

/-- Character list of a string literal. -/
def chars (s : String) : List Char :=
  s.data

/-- Lower-cased copy of a character list (ASCII case folding, matching
Python re.IGNORECASE on the ASCII patterns this program uses). -/
def lowerStr (cs : List Char) : List Char :=
  cs.map Char.toLower

/-- Does `s` start with `pat`? -/
def startsWith : List Char → List Char → Bool
  | _, [] => true
  | [], _ :: _ => false
  | c :: cs, p :: ps => c == p && startsWith cs ps

/-- Python `str.strip()`: remove whitespace from both ends. -/
def strip (cs : List Char) : List Char :=
  ((cs.dropWhile isSpaceChar).reverse.dropWhile isSpaceChar).reverse

/-- The suffix of `s` after the first occurrence of `pat`
(left-to-right scan, as `re.search` on a literal pattern). -/
def afterFirst (pat : List Char) : List Char → Option (List Char)
  | [] => if pat = [] then some [] else none
  | c :: cs =>
    if startsWith (c :: cs) pat then some ((c :: cs).drop pat.length)
    else afterFirst pat cs

/-- Case-insensitive variant of `afterFirst`; `pat` is given in lower
case, the returned suffix keeps the original case. -/
def afterFirstCI (pat : List Char) : List Char → Option (List Char)
  | [] => if pat = [] then some [] else none
  | c :: cs =>
    if startsWith (lowerStr (c :: cs)) pat then some ((c :: cs).drop pat.length)
    else afterFirstCI pat cs

/-- The prefix of `s` before the first occurrence of `pat`
(all of `s` when `pat` does not occur). -/
def takeUntil (pat : List Char) : List Char → List Char
  | [] => []
  | c :: cs =>
    if startsWith (c :: cs) pat then []
    else c :: takeUntil pat cs

/-- Case-insensitive variant of `takeUntil` (`pat` in lower case). -/
def takeUntilCI (pat : List Char) : List Char → List Char
  | [] => []
  | c :: cs =>
    if startsWith (lowerStr (c :: cs)) pat then []
    else c :: takeUntilCI pat cs

/-- Substring test, Python `pat in s`. -/
def containsSub (s pat : List Char) : Bool :=
  (afterFirst pat s).isSome

/-- Numeric value of a digit list (Python `int` on a digit-only string). -/
def digitsVal (cs : List Char) : Nat :=
  cs.foldl (fun a c => 10 * a + (c.toNat - 48)) 0

/-- Split a character list at every dot. -/
def splitDot : List Char → List (List Char)
  | [] => [[]]
  | c :: cs =>
    match splitDot cs with
    | [] => [[c]]
    | p :: ps => if c = '.' then [] :: p :: ps else (c :: p) :: ps

/-- Mantissa and decimal scale of a Python float literal over the
alphabet the capture group 0-9-dot produces: conversion succeeds exactly
when the string holds at least one digit and at most one dot, and the
value is mantissa over ten to the scale. -/
def pyFloatParts (cs : List Char) : Option (Nat × Nat) :=
  if cs.all isScoreChar && cs.any isDigitChar then
    match splitDot cs with
    | [w] => some (digitsVal w, 0)
    | [w, f] => some (digitsVal (w ++ f), f.length)
    | _ => none
  else none

/-- Python `float()` on a capture of the 0-9-dot class: the exact
decimal value, or none where Python raises ValueError. -/
def pyFloat (cs : List Char) : Option Rat :=
  (pyFloatParts cs).map (fun p => (p.1 : Rat) / (10 : Rat) ^ p.2)

/-- Outcome of running a piece of Python code: a value, or a raised
exception identified by a message / class name. -/
inductive PyVal (α : Type) where
  | ok : α → PyVal α
  | raised : List Char → PyVal α
deriving DecidableEq

/-- utils/gemini_api.py, get_summary: returns the configuration-error
string when the module-level model handle is None, the provider response
text on success, and a descriptive error string when the provider call
raises.  The prompt built from the resume text only feeds the provider
call, which is abstracted as the `call` parameter. -/
def get_summary (model : Option Unit) (call : PyVal (List Char)) : List Char :=
  match model with
  | none => chars "Error: Gemini model is not configured. Please check your API key."
  | some _ =>
    match call with
    | .ok t => t
    | .raised e => chars "An error occurred while generating the summary: " ++ e

/-- utils/gemini_api.py, get_analysis: same shape as `get_summary` with
its own error message.  Its Python signature takes only `resume_text`
(see `get_analysis_params`). -/
def get_analysis (model : Option Unit) (call : PyVal (List Char)) : List Char :=
  match model with
  | none => chars "Error: Gemini model is not configured. Please check your API key."
  | some _ =>
    match call with
    | .ok t => t
    | .raised e => chars "An error occurred while generating the analysis: " ++ e

/-- utils/gemini_api.py, get_wellness_score: same shape as `get_summary`
with its own error message.  Its Python signature takes only
`analysis_text` (see `get_wellness_score_params`). -/
def get_wellness_score (model : Option Unit) (call : PyVal (List Char)) : List Char :=
  match model with
  | none => chars "Error: Gemini model is not configured. Please check your API key."
  | some _ =>
    match call with
    | .ok t => t
    | .raised e => chars "An error occurred while generating the wellness score: " ++ e

/-- Parameter names of gemini_api.get_analysis as defined in
src/utils/gemini_api.py: only resume_text. -/
def get_analysis_params : List (List Char) :=
  [chars "resume_text"]

/-- Parameter names of gemini_api.get_wellness_score as defined in
src/utils/gemini_api.py: only analysis_text. -/
def get_wellness_score_params : List (List Char) :=
  [chars "analysis_text"]

/-- Keyword arguments main.py uses at its get_analysis call site. -/
def analysisCallKwargs : List (List Char) :=
  [chars "resume_text", chars "current_date"]

/-- Keyword arguments main.py uses at its get_wellness_score call site. -/
def wellnessCallKwargs : List (List Char) :=
  [chars "analysis_text", chars "current_date"]

/-- Python keyword binding: a call with keyword arguments binds only if
every keyword names a declared parameter; otherwise the call raises
TypeError before the function body runs. -/
def kwargsBind (params kwargs : List (List Char)) : Bool :=
  kwargs.all (fun k => params.contains k)

/-- Result dictionary of calculate_ats_score: score and analysis. -/
structure AtsResult where
  score : Nat
  analysis : List Char
deriving DecidableEq

/-- utils/simple_ats.py: the capture of
re.search(r"ATS Score:\s*(\d+)/100", text, re.IGNORECASE) as a number.
Left-to-right scan; at a match position the literal is followed by a
maximal whitespace run, a maximal nonempty digit run, then the literal
/100 (a shorter digit run would have to be followed by a digit, never by
the slash, so greedy backtracking adds nothing). -/
def atsScoreCapture : List Char → Option Nat
  | [] => none
  | c :: cs =>
    if startsWith (lowerStr (c :: cs)) (chars "ats score:") then
      let rest := ((c :: cs).drop 10).dropWhile isSpaceChar
      let digits := rest.takeWhile isDigitChar
      if digits ≠ [] && startsWith (rest.drop digits.length) (chars "/100") then
        some (digitsVal digits)
      else atsScoreCapture cs
    else atsScoreCapture cs

/-- utils/simple_ats.py: element 1 of
re.split(r"\*\*Analysis:\*\*", text, flags=re.IGNORECASE), i.e. the text
after the first case-insensitive occurrence of the literal marker
**Analysis:** and before its next occurrence if it repeats; none when
the marker is absent (the split yields a single part). -/
def atsAnalysisSegment (s : List Char) : Option (List Char) :=
  match afterFirstCI (chars "**analysis:**") s with
  | none => none
  | some rest => some (takeUntilCI (chars "**analysis:**") rest)

/-- utils/simple_ats.py, calculate_ats_score: the configuration-error
dictionary when the model handle is None; a caught-exception dictionary
when the provider call raises; otherwise the parsed score (default 0)
and the parsed analysis (default Could-not-parse text). -/
def calculate_ats_score (model : Option Unit) (call : PyVal (List Char)) : AtsResult :=
  match model with
  | none => ⟨0, chars "Error: Gemini model is not configured."⟩
  | some _ =>
    match call with
    | .raised e => ⟨0, chars "An error occurred during ATS analysis: " ++ e⟩
    | .ok response_text =>
      ⟨(atsScoreCapture response_text).getD 0,
       match atsAnalysisSegment response_text with
       | some seg => strip seg
       | none => chars "Could not parse analysis."⟩

/-- The spec's reading of the ATS analysis extraction, stated for
comparison with the code: everything following the first case-insensitive
occurrence of the bare marker analysis-colon, trimmed. -/
def specAnalysisAfterMarker (s : List Char) : Option (List Char) :=
  (afterFirstCI (chars "analysis:") s).map strip

/-- main.py step 4: the capture of
re.search(r"Score:\s*([0-9.]+)", raw).  Left-to-right scan; at a match
position the literal Score-colon is followed by a maximal whitespace run
and then a maximal nonempty run of digits and dots, which is the capture;
when no digit-or-dot follows, the scan resumes one position later. -/
def scoreCapture : List Char → Option (List Char)
  | [] => none
  | c :: cs =>
    if startsWith (c :: cs) (chars "Score:") then
      let rest := ((c :: cs).drop 6).dropWhile isSpaceChar
      let digits := rest.takeWhile isScoreChar
      if digits ≠ [] then some digits else scoreCapture cs
    else scoreCapture cs

/-- main.py step 4: group 1 of
re.search(r"Explanation:\s*(.*?)(?:\nNote:|$)", raw, re.DOTALL),
already stripped as the code does.  After the first Explanation-colon the
greedy whitespace run is skipped and the lazy capture stops at the first
newline-Note-colon, or runs to the end (the dollar alternative; its
match-before-a-trailing-newline case is absorbed by the strip). -/
def explanationCapture (s : List Char) : Option (List Char) :=
  match afterFirst (chars "Explanation:") s with
  | none => none
  | some rest => some (strip (takeUntil (chars "\nNote:") (rest.dropWhile isSpaceChar)))

/-- main.py step 4: group 1 of re.search(r"Note:\s*(.*)", raw, re.DOTALL),
already stripped as the code does. -/
def noteCapture (s : List Char) : Option (List Char) :=
  (afterFirst (chars "Note:") s).map (fun rest => strip (rest.dropWhile isSpaceChar))

/-- main.py step 4: the final wellness_score_explanation string, built
from the explanation part and the optional note part, joined by a
newline, with the fallback text when both regexes fail. -/
def wellnessExplanation (raw : List Char) : List Char :=
  let parts : List (List Char) :=
    (match explanationCapture raw with
     | some e => [e]
     | none => []) ++
    (match noteCapture raw with
     | some n => [chars "Note: " ++ n]
     | none => [])
  if parts = [] then chars "Could not parse score."
  else List.intercalate (chars "\n") parts

/-- main.py step 4: wellness_score_value.  When the score pattern does
not match the value stays 0.0; when it matches, Python float is applied
to the capture and raises ValueError on a malformed numeral. -/
def wellnessValue (raw : List Char) : PyVal Rat :=
  match scoreCapture raw with
  | none => .ok 0
  | some ds =>
    match pyFloat ds with
    | some v => .ok v
    | none => .raised (chars "ValueError")

/-- Holds when the score capture, if any, is a well-formed numeral, so
that the Python float conversion in main.py step 4 cannot raise. -/
def scoreParseOk (raw : List Char) : Bool :=
  match scoreCapture raw with
  | none => true
  | some ds => (pyFloat ds).isSome

/-- The three wellness fields computed by main.py step 4. -/
structure WellnessParsed where
  value : Rat
  explanation : List Char
  percent : Rat
deriving DecidableEq

/-- main.py step 4 as a whole: score value (possibly raising ValueError),
explanation string, and percent = value times 10. -/
def parseWellness (raw : List Char) : PyVal WellnessParsed :=
  match wellnessValue raw with
  | .raised e => .raised e
  | .ok v => .ok ⟨v, wellnessExplanation raw, v * 10⟩

/-- The AI calls the analyze handler can enter, in invocation order. -/
inductive HandlerEvent where
  | callSummary
  | callAnalysis
  | callWellness
  | callAts
deriving DecidableEq

/-- The template context main.py step 7 renders into result.html. -/
structure ResultContext where
  summary : List Char
  detailed_analysis_html : List Char
  wellness_score_value : Rat
  wellness_score_explanation : List Char
  wellness_score_percent : Rat
  ats_score : Nat
  ats_analysis_html : List Char
  jd_provided : Bool
deriving DecidableEq

/-- What the analyze handler produces: an upload page rendered with an
error message, the rendered results page, or an uncaught Python
exception propagating to the framework. -/
inductive HandlerOutcome where
  | uploadError : List Char → HandlerOutcome
  | resultsPage : ResultContext → HandlerOutcome
  | pyExn : List Char → HandlerOutcome
deriving DecidableEq

/-- main.py steps 6 and 7, ATS handling: jd_provided, whether
calculate_ats_score was invoked, and the two context fields it feeds. -/
structure AtsStepOut where
  jd_provided : Bool
  invoked : Bool
  ats_score : Nat
  ats_analysis_html : List Char
deriving DecidableEq

/-- main.py step 6: the ATS scorer runs only when the job description is
not blank; otherwise ats_score stays 0 and ats_analysis_html stays
empty.  `md` abstracts the markdown.markdown conversion. -/
def atsStep (job_description : List Char) (model : Option Unit)
    (call : PyVal (List Char)) (md : List Char → List Char) : AtsStepOut :=
  if strip job_description ≠ [] then
    let r := calculate_ats_score model call
    ⟨true, true, r.score, md r.analysis⟩
  else ⟨false, false, 0, []⟩

/-- A Python call through keyword arguments: the body result when the
keywords bind to the declared parameters, TypeError otherwise. -/
def invokeKw (params kwargs : List (List Char)) (result : List Char) :
    PyVal (List Char) :=
  if kwargsBind params kwargs then .ok result else .raised (chars "TypeError")

/-- main.py, analyze_resume (POST /analyze).  Inputs: the upload content
type, the text the PDF extractor returns (utils/extract_text.py is not in
view, so its output is taken as an input here), the job description, the
two module-level model handles, the four provider-call outcomes, and the
markdown converter.  Returns the outcome together with the list of AI
functions whose bodies were entered.  The get_analysis and
get_wellness_score call sites pass the keyword current_date, which their
signatures do not declare, so keyword binding decides whether those
calls are entered. -/
def analyze_resume (content_type resume_text job_description : List Char)
    (gemModel atsModel : Option Unit)
    (summaryCall analysisCall wellnessCall atsCall : PyVal (List Char))
    (md : List Char → List Char) : HandlerOutcome × List HandlerEvent :=
  if content_type ≠ chars "application/pdf" then
    (.uploadError (chars "Invalid file type. Please upload a PDF."), [])
  else if strip resume_text = [] then
    (.uploadError (chars "Could not find any text to analyze. Please ensure your PDF is text-based and not an image or a scan."), [])
  else
    let summary := get_summary gemModel summaryCall
    match invokeKw get_analysis_params analysisCallKwargs (get_analysis gemModel analysisCall) with
    | .raised e => (.pyExn e, [.callSummary])
    | .ok detailed_analysis =>
      match invokeKw get_wellness_score_params wellnessCallKwargs (get_wellness_score gemModel wellnessCall) with
      | .raised e => (.pyExn e, [.callSummary, .callAnalysis])
      | .ok wellness_score_raw =>
        match parseWellness wellness_score_raw with
        | .raised e => (.pyExn e, [.callSummary, .callAnalysis, .callWellness])
        | .ok p =>
          let detailed_analysis_html := md detailed_analysis
          let t := atsStep job_description atsModel atsCall md
          (.resultsPage
            ⟨summary, detailed_analysis_html, p.value, p.explanation, p.percent,
             t.ats_score, t.ats_analysis_html, t.jd_provided⟩,
           [.callSummary, .callAnalysis, .callWellness] ++
             (if t.invoked then [.callAts] else []))

/-- C1: the spec says the handler passes the current date to both
get_analysis and get_wellness_score and that the pipeline completes, but
both call sites in main.py use the keyword current_date, which neither
signature in utils/gemini_api.py declares, so keyword binding fails and
the handler raises TypeError right after get_summary: on a valid
non-empty PDF request the pipeline never completes. -/
theorem analyze_kwarg_mismatch :
    kwargsBind get_analysis_params analysisCallKwargs = false ∧
    kwargsBind get_wellness_score_params wellnessCallKwargs = false ∧
    analyze_resume (chars "application/pdf") (chars "John Doe, software engineer")
        (chars "Senior Python developer role") (some ()) (some ())
        (PyVal.ok (chars "A capable engineer.")) (PyVal.ok (chars "Detailed feedback."))
        (PyVal.ok (chars "Score: 8.0\nExplanation: solid")) (PyVal.ok (chars "ATS Score: 90/100")) id
      = (HandlerOutcome.pyExn (chars "TypeError"), [HandlerEvent.callSummary]) :=
  ⟨by decide, by decide, by decide⟩

/-- C2: each AI function is a total function of the model handle and the
provider-call outcome: with the model unconfigured it returns the inline
configuration-error string (for calculate_ats_score, the dictionary with
score 0 carrying that string), and when the provider call raises it
returns a descriptive error string built from the exception; nothing is
re-raised to the caller. -/
theorem ai_failure_semantics :
    (∀ c : PyVal (List Char),
      get_summary none c = chars "Error: Gemini model is not configured. Please check your API key." ∧
      get_analysis none c = chars "Error: Gemini model is not configured. Please check your API key." ∧
      get_wellness_score none c = chars "Error: Gemini model is not configured. Please check your API key." ∧
      calculate_ats_score none c = ⟨0, chars "Error: Gemini model is not configured."⟩) ∧
    (∀ e : List Char,
      get_summary (some ()) (PyVal.raised e) = chars "An error occurred while generating the summary: " ++ e ∧
      get_analysis (some ()) (PyVal.raised e) = chars "An error occurred while generating the analysis: " ++ e ∧
      get_wellness_score (some ()) (PyVal.raised e) = chars "An error occurred while generating the wellness score: " ++ e ∧
      calculate_ats_score (some ()) (PyVal.raised e) = ⟨0, chars "An error occurred during ATS analysis: " ++ e⟩) :=
  ⟨fun _ => ⟨rfl, rfl, rfl, rfl⟩, fun _ => ⟨rfl, rfl, rfl, rfl⟩⟩

/-- C3 counterexample: a raw response containing the substring
Error-colon is parsed like any other response: here the score comes out
82, not 0, and the analysis is the parsed segment, not the raw error
text, so the claimed error-marker check does not exist in
calculate_ats_score. -/
theorem ats_error_marker_counterexample :
    containsSub (chars "Error: quota exhausted\nATS Score: 82/100\n**Analysis:**\ngood") (chars "Error:") = true ∧
    calculate_ats_score (some ())
        (PyVal.ok (chars "Error: quota exhausted\nATS Score: 82/100\n**Analysis:**\ngood"))
      = ⟨82, chars "good"⟩ ∧
    (calculate_ats_score (some ())
        (PyVal.ok (chars "Error: quota exhausted\nATS Score: 82/100\n**Analysis:**\ngood"))).score ≠ 0 :=
  ⟨by decide, by decide, by decide⟩

/-- C3 amended: calculate_ats_score applies no error-marker check to the
raw response; a response containing Error-colon or the
all-available-API-keys marker goes through the same extraction as any
other response, score from the ATS Score pattern (default 0) and
analysis from the starred Analysis marker (default could-not-parse). -/
theorem ats_error_marker_amended (resp : List Char)
    (h : containsSub resp (chars "Error:") = true ∨
         containsSub resp (chars "All available API keys") = true) :
    calculate_ats_score (some ()) (PyVal.ok resp)
      = ⟨(atsScoreCapture resp).getD 0,
         match atsAnalysisSegment resp with
         | some seg => strip seg
         | none => chars "Could not parse analysis."⟩ :=
  rfl

/-- Witness for the amended C3 theorem at a concrete error response. -/
theorem ats_error_marker_amended_witness :
    calculate_ats_score (some ()) (PyVal.ok (chars "All available API keys failed"))
      = ⟨(atsScoreCapture (chars "All available API keys failed")).getD 0,
         match atsAnalysisSegment (chars "All available API keys failed") with
         | some seg => strip seg
         | none => chars "Could not parse analysis."⟩ :=
  ats_error_marker_amended (chars "All available API keys failed") (Or.inr (by decide))

/-- C4 counterexample: the claim reads the analysis marker as the bare
word analysis-colon; on a response using that bare marker the spec
reading yields the trailing text, but the code splits on the starred
marker only and falls back to the could-not-parse text. -/
theorem ats_analysis_marker_counterexample :
    specAnalysisAfterMarker (chars "ATS Score: 82/100\nAnalysis: good match")
      = some (chars "good match") ∧
    calculate_ats_score (some ()) (PyVal.ok (chars "ATS Score: 82/100\nAnalysis: good match"))
      = ⟨82, chars "Could not parse analysis."⟩ :=
  ⟨by decide, by decide⟩

/-- C4 amended: the score is the integer of the case-insensitive
literal pattern ATS Score over 100, default 0; the analysis is the text
after the first case-insensitive occurrence of the starred marker
two-stars-Analysis-colon-two-stars, up to its next occurrence if it
repeats, trimmed, with the could-not-parse fallback when absent; on the
claim's example response the score is 82 and the analysis is everything
after the starred marker, trimmed. -/
theorem ats_parsing_amended :
    calculate_ats_score (some ())
        (PyVal.ok (chars "ATS Score: 82/100\n**Analysis:**\n**1. Matching Skills**\n..."))
      = ⟨82, chars "**1. Matching Skills**\n..."⟩ ∧
    (∀ resp : List Char,
      calculate_ats_score (some ()) (PyVal.ok resp)
        = ⟨(atsScoreCapture resp).getD 0,
           match atsAnalysisSegment resp with
           | some seg => strip seg
           | none => chars "Could not parse analysis."⟩) :=
  ⟨by decide, fun _ => rfl⟩

/-- C5: on the raw wellness response of the claim, the parsing step of
analyze_resume yields value 7.5, percent 75 and the explanation made of
the captured explanation followed by the trailing note segment. -/
theorem wellness_example_parse :
    parseWellness (chars "Score: 7.5\nExplanation: Good structure.\nNote: Missing summary.")
      = PyVal.ok ⟨15 / 2, chars "Good structure.\nNote: Missing summary.", 75⟩ := by
  have h1 : scoreCapture (chars "Score: 7.5\nExplanation: Good structure.\nNote: Missing summary.")
      = some (chars "7.5") := by decide
  have h2 : pyFloatParts (chars "7.5") = some (75, 1) := by decide
  have h3 : wellnessExplanation (chars "Score: 7.5\nExplanation: Good structure.\nNote: Missing summary.")
      = chars "Good structure.\nNote: Missing summary." := by decide
  simp only [parseWellness, wellnessValue, pyFloat, h1, h2, h3, Option.map_some]
  norm_num

/-- C6: when the score pattern has no match in the raw response, the
parsed value is 0 and the percent, value times ten, is 0 as well. -/
theorem wellness_score_default (raw : List Char) (h : scoreCapture raw = none) :
    parseWellness raw = PyVal.ok ⟨0, wellnessExplanation raw, 0⟩ := by
  simp only [parseWellness, wellnessValue, h]
  norm_num

/-- Witness for the C6 theorem at a concrete score-free response. -/
theorem wellness_score_default_witness :
    parseWellness (chars "no numeric line here")
      = PyVal.ok ⟨0, wellnessExplanation (chars "no numeric line here"), 0⟩ :=
  wellness_score_default (chars "no numeric line here") (by decide)

/-- C7 counterexample: on a raw response whose score capture is dots
only, Python float raises ValueError, so the parsing step does not
complete for every raw response. -/
theorem wellness_float_valueerror :
    parseWellness (chars "Score: ..") = PyVal.raised (chars "ValueError") := by
  decide

/-- C7 amended: whenever the score capture, if any, is a well-formed
numeral, the parsing step completes without raising; a score-pattern
mismatch yields the default value 0 with percent 0, and when neither the
explanation nor the note pattern matches the explanation falls back to
the could-not-parse text. -/
theorem wellness_parse_total_amended (raw : List Char) (h : scoreParseOk raw = true) :
    (∃ p, parseWellness raw = PyVal.ok p) ∧
    (scoreCapture raw = none → parseWellness raw = PyVal.ok ⟨0, wellnessExplanation raw, 0⟩) ∧
    (explanationCapture raw = none → noteCapture raw = none →
      wellnessExplanation raw = chars "Could not parse score.") := by
  refine ⟨?_, ?_, ?_⟩
  · unfold scoreParseOk at h
    cases hsc : scoreCapture raw with
    | none =>
      exact ⟨⟨0, wellnessExplanation raw, 0 * 10⟩, by simp only [parseWellness, wellnessValue, hsc]⟩
    | some ds =>
      simp only [hsc] at h
      obtain ⟨v, hv⟩ := Option.isSome_iff_exists.mp h
      exact ⟨⟨v, wellnessExplanation raw, v * 10⟩,
        by simp only [parseWellness, wellnessValue, hsc, hv]⟩
  · intro hn
    simp only [parseWellness, wellnessValue, hn]
    norm_num
  · intro h1 h2
    simp [wellnessExplanation, h1, h2]

/-- Witness for the amended C7 theorem at a concrete response. -/
theorem wellness_parse_total_amended_witness :
    (∃ p, parseWellness (chars "a tidy resume") = PyVal.ok p) ∧
    (scoreCapture (chars "a tidy resume") = none →
      parseWellness (chars "a tidy resume")
        = PyVal.ok ⟨0, wellnessExplanation (chars "a tidy resume"), 0⟩) ∧
    (explanationCapture (chars "a tidy resume") = none →
      noteCapture (chars "a tidy resume") = none →
      wellnessExplanation (chars "a tidy resume") = chars "Could not parse score.") :=
  wellness_parse_total_amended (chars "a tidy resume") (by decide)

/-- C8: any upload whose content type is not application-pdf is rejected
with the invalid-file-type error on the upload page, and no AI function
is entered. -/
theorem invalid_file_type_rejected (ct text jd : List Char)
    (gm am : Option Unit) (cs ca cw cats : PyVal (List Char))
    (md : List Char → List Char) (h : ct ≠ chars "application/pdf") :
    analyze_resume ct text jd gm am cs ca cw cats md
      = (HandlerOutcome.uploadError (chars "Invalid file type. Please upload a PDF."), []) := by
  unfold analyze_resume
  rw [if_pos h]

/-- Witness for the C8 theorem at a concrete non-PDF content type. -/
theorem invalid_file_type_rejected_witness :
    analyze_resume (chars "image/png") (chars "some text") (chars "jd") (some ()) (some ())
        (PyVal.ok (chars "a")) (PyVal.ok (chars "b")) (PyVal.ok (chars "c"))
        (PyVal.ok (chars "d")) id
      = (HandlerOutcome.uploadError (chars "Invalid file type. Please upload a PDF."), []) :=
  invalid_file_type_rejected _ _ _ _ _ _ _ _ _ _ (by decide)

/-- C9: a PDF whose extracted text strips to nothing is rejected with
the no-text error on the upload page, and no AI function is entered. -/
theorem empty_text_rejected (text jd : List Char)
    (gm am : Option Unit) (cs ca cw cats : PyVal (List Char))
    (md : List Char → List Char) (h : strip text = []) :
    analyze_resume (chars "application/pdf") text jd gm am cs ca cw cats md
      = (HandlerOutcome.uploadError (chars "Could not find any text to analyze. Please ensure your PDF is text-based and not an image or a scan."), []) := by
  unfold analyze_resume
  rw [if_neg (fun hc => hc rfl), if_pos h]

/-- Witness for the C9 theorem at a whitespace-only extracted text. -/
theorem empty_text_rejected_witness :
    analyze_resume (chars "application/pdf") (chars "  \n\t ") (chars "jd") (some ()) (some ())
        (PyVal.ok (chars "a")) (PyVal.ok (chars "b")) (PyVal.ok (chars "c"))
        (PyVal.ok (chars "d")) id
      = (HandlerOutcome.uploadError (chars "Could not find any text to analyze. Please ensure your PDF is text-based and not an image or a scan."), []) :=
  empty_text_rejected _ _ _ _ _ _ _ _ _ (by decide)

/-- C10: on a valid PDF request with a blank job description the handler
aborts with TypeError at the get_analysis call before the ATS step, so
no context is rendered; the ATS step itself keeps jd_provided false,
never invokes calculate_ats_score, and leaves ats_score 0 and
ats_analysis_html empty for every blank job description. -/
theorem blank_jd_ats_defaults :
    (analyze_resume (chars "application/pdf") (chars "Seasoned data analyst, eight years of SQL")
        (chars "   ") (some ()) (some ())
        (PyVal.ok (chars "fine summary")) (PyVal.ok (chars "fine analysis"))
        (PyVal.ok (chars "Score: 9.0\nExplanation: fine")) (PyVal.ok (chars "unused")) id
      = (HandlerOutcome.pyExn (chars "TypeError"), [HandlerEvent.callSummary])) ∧
    (∀ (jd : List Char) (am : Option Unit) (c : PyVal (List Char)) (md : List Char → List Char),
      strip jd = [] → atsStep jd am c md = ⟨false, false, 0, []⟩) := by
  refine ⟨by decide, ?_⟩
  intro jd am c md h
  unfold atsStep
  rw [if_neg (fun hc => hc h)]

/-- Witness for the C10 theorem at a concrete blank job description. -/
theorem blank_jd_ats_defaults_witness :
    atsStep (chars " ") (some ()) (PyVal.ok (chars "unused")) id = ⟨false, false, 0, []⟩ :=
  blank_jd_ats_defaults.2 (chars " ") (some ()) (PyVal.ok (chars "unused")) id (by decide)

end BetterResume
